import Mathlib

/-!
Shallow embedding of the Veroxbank (Lyra Banque) withdrawal engine.

Two server variants exist in the repository:
- the local-ledger server (src/unnamed/part_001): an in-memory wallet balance is the
  source of truth; each withdrawal route debits it optimistically, calls the PSP via
  callPSP, rolls the debit back on a failed gateway result, and records the attempt
  in a per-session bounded history;
- the remote-wallet server (src/server.js): no local ledger; balance comes from the
  PSP wallet endpoint through a 30s cache (fetchWalletInfo), and the generic payout
  route additionally inspects the provider status field of the response body.

JS numbers are modelled as rationals (Rat); NaN is modelled by Option.none on a
parsed amount. JS falsiness of request fields is modelled explicitly where the code
branches on it.
-/

namespace Veroxbank

/-- An opaque provider response body, abstracted to the only feature the code ever
inspects: its optional top-level status field (read as j.status by the remote-wallet
generic payout route). The tag keeps otherwise-equal bodies distinguishable.
- json s t : a parsed JSON object whose status field is s (none when absent);
- null : a body that failed to parse (server.js sets j = null in that case);
- errMessage m : the diagnostic object with a message field that callPSP synthesizes
  on a transport-level failure. -/
inductive PSPBody where
  | json (status : Option String) (tag : Nat)
  | null
  | errMessage (msg : String)
deriving DecidableEq, Repr

/-- The normalized gateway call result produced by callPSP (part_001 lines 149-160):
ok, HTTP status, and the response data. The source names the third field data. -/
structure GatewayResult where
  ok : Bool
  status : Nat
  data : PSPBody
deriving DecidableEq, Repr

/-- The outcome of the underlying HTTP transport for one PSP call: either an HTTP
response arrived (any status code, with a body), or the transport failed (timeout,
DNS, connection reset, ...) with an error message. -/
inductive HttpOutcome where
  | response (status : Nat) (body : PSPBody)
  | netError (msg : String)
deriving DecidableEq, Repr

/-- Whether a status code is 2xx: axios default validateStatus resolves exactly for
200 <= s < 300, and node-fetch sets r.ok under the same condition. -/
def is2xx (s : Nat) : Bool := 200 ≤ s && s < 300

/-- callPSP (part_001 lines 149-160). axios.post resolves on a 2xx response and
throws otherwise; the catch turns a thrown error with an attached response into
(ok = false, that status, that body) and a transport-level error into
(ok = false, 500, a body with the error message). It is a total function: no
exception escapes to the caller. -/
def callPSP (outcome : HttpOutcome) : GatewayResult :=
  match outcome with
  | .response s b => if is2xx s then ⟨true, s, b⟩ else ⟨false, s, b⟩
  | .netError m => ⟨false, 500, .errMessage m⟩

/-- Server configuration (part_001 lines 50-55, 78): the feature flag, credentials
and display currency, all read from the environment at startup. -/
structure Config where
  enableWithdrawal : Bool
  walletId : String
  merchantId : String
  appName : String
  walletCurrency : String
deriving DecidableEq, Repr

/-- JS whitespace characters matched by the regex class backslash-s (space, tab,
newline, carriage return, vertical tab, form feed; unicode spaces omitted as they do
not occur in the claims). -/
def isJsWs (c : Char) : Bool :=
  c = ' ' || c = '\t' || c = '\n' || c = '\r' || c = '\x0b' || c = '\x0c'

/-- Remove every JS whitespace character. normalizePhone first trims surrounding
whitespace and then deletes every remaining whitespace run, so the net effect on the
character list is to drop every whitespace character. -/
def stripWs (s : List Char) : List Char := s.filter (fun c => !(isJsWs c))

/-- normalizePhone (part_001 lines 99-102): a falsy phone (absent, null, empty
string) maps to null; otherwise the string is trimmed and all whitespace runs are
removed. none models null / an absent field. -/
def normalizePhone : Option (List Char) → Option (List Char)
  | none => none
  | some s => some (stripWs s)

/-- JS falsiness of the normalized phone value at the validation check !p: null or
the empty string. -/
def phoneFalsy : Option (List Char) → Bool
  | none => true
  | some s => s.isEmpty

/-- The observable features of the raw JS amount request field, as used by the
routes: its truthiness (checked by !amount) and the result of Number(amount), where
none models NaN. -/
structure JsAmount where
  truthy : Bool
  num : Option Rat
deriving DecidableEq, Repr

/-- A withdrawal request body: { amount, phone }. -/
structure WithdrawReq where
  amount : JsAmount
  phone : Option (List Char)
deriving DecidableEq, Repr

/-- A transaction record pushed into the per-session history (part_001 lines 196,
202 etc.): local tx reference, amount, operator label, status string, failure
details (error records) or provider body (success records). -/
structure HistEntry where
  tx : String
  amount : Rat
  operator : String
  status : String
  details : Option PSPBody
  psp : Option PSPBody
deriving DecidableEq, Repr

/-- MAX_HISTORY_PER_SESSION (part_001 line 81). -/
def MAX_HISTORY_PER_SESSION : Nat := 200

/-- pushHistory (part_001 lines 82-87): unshift the entry at the front, then pop the
last (oldest) element when the length exceeds the cap. -/
def pushHistory (h : List HistEntry) (e : HistEntry) : List HistEntry :=
  let h' := e :: h
  if h'.length > MAX_HISTORY_PER_SESSION then h'.dropLast else h'

/-- The mutable server state the withdrawal routes touch: the wallet balance
(part_001 line 77) and the session history. -/
structure ServerState where
  walletBalance : Rat
  history : List HistEntry
deriving DecidableEq, Repr

/-- USSD payload (part_001 lines 180-188 and 225-233): amount, fixed currency XAF,
phone, optional merchant and wallet id (empty string is falsy, hence undefined),
reference and note. -/
structure UssdPayload where
  amount : Rat
  currency : String
  phone : List Char
  merchant : Option String
  wallet_id : Option String
  reference : String
  note : String
deriving DecidableEq, Repr

/-- Generic payout payload (part_001 lines 267-274). -/
structure PayoutPayload where
  amount : Rat
  currency : String
  wallet_id : Option String
  merchant_reference : String
  destinationPhone : List Char
  note : String
deriving DecidableEq, Repr

/-- The payload actually posted to the PSP, by shape. -/
inductive SentPayload where
  | ussd (pl : UssdPayload)
  | payout (pl : PayoutPayload)
deriving DecidableEq, Repr

/-- One dispatched PSP call: the endpoint path suffix and the payload. -/
structure SentCall where
  path : String
  payload : SentPayload
deriving DecidableEq, Repr

/-- MERCHANT_ID || undefined and WALLET_ID || undefined: the empty string is falsy. -/
def strOrUndefined (s : String) : Option String :=
  if s = "" then none else some s

/-- The USSD payload builder for route code c (74 or 62), part_001 lines 180-188. -/
def buildUssdCall (cfg : Config) (code : String) (numeric : Rat) (p : List Char) :
    SentCall :=
  ⟨code ++ "/paiement",
   .ussd ⟨numeric, "XAF", p, strOrUndefined cfg.merchantId,
          strOrUndefined cfg.walletId, "lyra_ussd_", cfg.appName ++ " - USSD " ++ code⟩⟩

/-- The generic payout payload builder, part_001 lines 267-274. -/
def buildPayoutCall (cfg : Config) (numeric : Rat) (p : List Char) : SentCall :=
  ⟨"payouts",
   .payout ⟨numeric, "XAF", strOrUndefined cfg.walletId, "lyra_",
            p, cfg.appName ++ " - retrait"⟩⟩

/-- The currency field of a sent payload. -/
def SentPayload.currency : SentPayload → String
  | .ussd pl => pl.currency
  | .payout pl => pl.currency

/-- What happens after the optimistic debit inside the try block: either the PSP
call completes and the transport outcome is normalized by callPSP, or an unexpected
exception is raised (any fault after the debit: the route catch handler at part_001
lines 205-208 / 246-249 / 288-291 then runs). -/
inductive PostDebit where
  | gw (outcome : HttpOutcome)
  | exn (msg : String)
deriving DecidableEq, Repr

/-- The HTTP response a part_001 withdrawal route produces. -/
inductive RouteResp where
  | disabled
  | missingFields
  | invalidAmount
  | insufficient
  | pspError (status : Nat) (details : PSPBody)
  | success (psp : PSPBody) (balance : Rat)
  | internalError (msg : String)
deriving DecidableEq, Repr

/-- A route invocation outcome: the HTTP response, the server state afterwards, and
the PSP call that was dispatched, if any. -/
structure RouteOut where
  resp : RouteResp
  state : ServerState
  sent : Option SentCall
deriving DecidableEq, Repr

/-- result.status || 500: a zero status is falsy. -/
def statusOr500 (s : Nat) : Nat := if s = 0 then 500 else s

/-- The common body of the three part_001 withdrawal routes (lines 165-209, 212-251,
254-292), which differ only in operator label, tx prefix and payload/path builder:
1. reject when withdrawals are disabled;
2. normalize the phone, reject when amount or normalized phone is falsy;
3. reject when Number(amount) is NaN or <= 0;
4. reject when the amount exceeds the wallet balance;
5. debit the balance, dispatch the PSP call;
6. on a failed gateway result, credit the amount back, push an error record, and
   answer with the gateway status (|| 500) and details;
7. on an ok gateway result, push a success record and answer with the provider body
   and the new balance;
8. an unexpected exception after the debit is caught by the route catch handler,
   which answers 500 internal error without touching the balance. -/
def retraitRoute (op : String) (txPrefix : String)
    (mkCall : Config → Rat → List Char → SentCall)
    (cfg : Config) (req : WithdrawReq) (post : PostDebit) (st : ServerState) :
    RouteOut :=
  if !cfg.enableWithdrawal then ⟨.disabled, st, none⟩
  else
    let p := normalizePhone req.phone
    if !req.amount.truthy || phoneFalsy p then ⟨.missingFields, st, none⟩
    else
      match req.amount.num with
      | none => ⟨.invalidAmount, st, none⟩
      | some numeric =>
        if numeric ≤ 0 then ⟨.invalidAmount, st, none⟩
        else if numeric > st.walletBalance then ⟨.insufficient, st, none⟩
        else
          let debited : ServerState := ⟨st.walletBalance - numeric, st.history⟩
          let pchars := p.getD []
          let call := mkCall cfg numeric pchars
          match post with
          | .exn m => ⟨.internalError m, debited, none⟩
          | .gw outcome =>
            let result := callPSP outcome
            if !result.ok then
              let entry : HistEntry :=
                ⟨txPrefix, numeric, op, "error", some result.data, none⟩
              ⟨.pspError (statusOr500 result.status) result.data,
               ⟨debited.walletBalance + numeric, pushHistory debited.history entry⟩,
               some call⟩
            else
              let entry : HistEntry :=
                ⟨txPrefix, numeric, op, "success", none, some result.data⟩
              let st2 : ServerState :=
                ⟨debited.walletBalance, pushHistory debited.history entry⟩
              ⟨.success result.data st2.walletBalance, st2, some call⟩

/-- POST /api/retrait/74 (part_001 lines 165-209): Airtel USSD. -/
def retrait74 (cfg : Config) (req : WithdrawReq) (post : PostDebit)
    (st : ServerState) : RouteOut :=
  retraitRoute "Airtel" "LYRA-ATM-74" (fun c n p => buildUssdCall c "74" n p)
    cfg req post st

/-- POST /api/retrait/62 (part_001 lines 212-251): Moov USSD. -/
def retrait62 (cfg : Config) (req : WithdrawReq) (post : PostDebit)
    (st : ServerState) : RouteOut :=
  retraitRoute "Moov" "LYRA-ATM-62" (fun c n p => buildUssdCall c "62" n p)
    cfg req post st

/-- POST /api/retrait/singpay (part_001 lines 254-292): generic payout. Note that
this route branches only on result.ok and never inspects the provider status field
of the response body. -/
def retraitSingpay (cfg : Config) (req : WithdrawReq) (post : PostDebit)
    (st : ServerState) : RouteOut :=
  retraitRoute "Singpay" "LYRA-PAYOUT" (fun c n p => buildPayoutCall c n p)
    cfg req post st

/-- GET /api/balance (part_001 lines 143-146): the local balance and the configured
display currency. -/
structure BalanceResp where
  balance : Rat
  currency : String
deriving DecidableEq, Repr

/-- GET /api/balance handler (part_001 lines 143-146). -/
def apiBalance (cfg : Config) (st : ServerState) : BalanceResp :=
  ⟨st.walletBalance, cfg.walletCurrency⟩

/-- The initial wallet balance (part_001 line 77): 1 quadrillion. -/
def initialBalance : Rat := 1000000000000000

/-- The route selector for the reachability relation. -/
inductive RouteId where
  | r74
  | r62
  | rsingpay
deriving DecidableEq, Repr

/-- Dispatch one withdrawal request to the selected part_001 route. -/
def routeRun (rid : RouteId) (cfg : Config) (req : WithdrawReq) (post : PostDebit)
    (st : ServerState) : RouteOut :=
  match rid with
  | .r74 => retrait74 cfg req post st
  | .r62 => retrait62 cfg req post st
  | .rsingpay => retraitSingpay cfg req post st

/-- The states reachable from process start by any sequence of withdrawal requests
on the three routes, with arbitrary inputs and arbitrary gateway or exception
outcomes. -/
inductive Reachable (cfg : Config) : ServerState → Prop
  | init : Reachable cfg ⟨initialBalance, []⟩
  | step (rid : RouteId) (req : WithdrawReq) (post : PostDebit) (st : ServerState) :
      Reachable cfg st → Reachable cfg (routeRun rid cfg req post st).state

/-! ### The remote-wallet variant (src/server.js) -/

/-- An opaque wallet-info object returned by the PSP balance-lookup endpoint. -/
structure WalletInfo where
  tag : Nat
deriving DecidableEq, Repr

/-- The cache state of server.js (lines 27-29): walletCache (none models both the
unset initial value and a stored null body) and the lastFetch timestamp in ms. -/
structure CacheState where
  walletCache : Option WalletInfo
  lastFetch : Int
deriving DecidableEq, Repr

/-- CACHE_DURATION (server.js line 29): 30 seconds in ms. -/
def CACHE_DURATION : Int := 30000

/-- The outcome of the balance-lookup fetch: a response with an HTTP status and a
parsed body (none when r.json() rejected, giving j = null), or a thrown
transport-level error. -/
inductive LookupOutcome where
  | response (status : Nat) (j : Option WalletInfo)
  | netError (msg : String)
deriving DecidableEq, Repr

/-- What fetchWalletInfo produced: the returned value or the propagated error, the
cache state afterwards, and whether the gateway was contacted at all. -/
structure FetchResult where
  result : Except String (Option WalletInfo)
  state : CacheState
  contacted : Bool
deriving Repr

/-- The cache-hit condition of server.js line 50: !force && walletCache &&
now - lastFetch < CACHE_DURATION (walletCache truthy means non-null). -/
def cacheFresh (force : Bool) (now : Int) (st : CacheState) : Bool :=
  !force && st.walletCache.isSome && decide (now - st.lastFetch < CACHE_DURATION)

/-- fetchWalletInfo (server.js lines 48-66). On a fresh cache it returns the cached
value without contacting the gateway. Otherwise it performs the lookup: a non-2xx
response throws (and the catch rethrows, so the failure propagates and the cache is
left untouched); a thrown transport error likewise propagates; a 2xx response
stores the parsed body with a fresh timestamp and returns it. -/
def fetchWalletInfo (force : Bool) (now : Int) (st : CacheState)
    (lk : LookupOutcome) : FetchResult :=
  if cacheFresh force now st then ⟨.ok st.walletCache, st, false⟩
  else
    match lk with
    | .netError m => ⟨.error m, st, true⟩
    | .response status j =>
      if !(is2xx status) then ⟨.error "Failed to fetch wallet info", st, true⟩
      else ⟨.ok j, ⟨j, now⟩, true⟩

/-- The HTTP response of the server.js generic payout route. -/
inductive V2Resp where
  | disabled
  | missingFields
  | pspError (status : Nat) (details : PSPBody)
  | success (psp : PSPBody) (wallet : Option WalletInfo)
  | successNoRefresh (psp : PSPBody) (err : String)
  | internalError (msg : String)
deriving DecidableEq, Repr

/-- The check j.status === success on the parsed body: the provider status field
equals the string success. A null body or a body without a status field never
satisfies it. -/
def bodyStatusSuccess : PSPBody → Bool
  | .json (some s) _ => s = "success"
  | _ => false

/-- j !== null: the body parsed to a non-null value. -/
def bodyNonNull : PSPBody → Bool
  | .null => false
  | _ => true

/-- POST /api/retrait/singpay of server.js (lines 167-212). After validation it
posts the payout and checks r.ok, j non-null, and j.status === success; on any
failure it answers with r.status || 400 and the body as details. On success it
force-refreshes the wallet cache: a refresh failure downgrades the answer but the
payout is still reported as initiated. A thrown transport error is caught by the
outer catch and answered as a 500 internal error. This variant keeps no local
ledger. -/
def retraitSingpayV2 (cfg : Config) (req : WithdrawReq) (outcome : HttpOutcome)
    (refresh : Except String (Option WalletInfo)) : V2Resp :=
  if !cfg.enableWithdrawal then .disabled
  else
    let p := normalizePhone req.phone
    if !req.amount.truthy || phoneFalsy p then .missingFields
    else
      match outcome with
      | .netError m => .internalError m
      | .response s b =>
        if !(is2xx s) || !(bodyNonNull b) || !(bodyStatusSuccess b) then
          .pspError (if s = 0 then 400 else s) b
        else
          match refresh with
          | .ok w => .success b w
          | .error e => .successNoRefresh b e

/-! ### Structural lemmas -/

/-- Exhaustive case analysis of a part_001 withdrawal route: every invocation falls
into exactly one of the seven source branches, with the guarding conditions and the
produced response, state and dispatched call made explicit. -/
theorem retraitRoute_cases (op pre : String)
    (mk : Config → Rat → List Char → SentCall)
    (cfg : Config) (req : WithdrawReq) (post : PostDebit) (st : ServerState) :
    (retraitRoute op pre mk cfg req post st = ⟨.disabled, st, none⟩ ∧
      cfg.enableWithdrawal = false) ∨
    (retraitRoute op pre mk cfg req post st = ⟨.missingFields, st, none⟩ ∧
      cfg.enableWithdrawal = true ∧
      (req.amount.truthy = false ∨ phoneFalsy (normalizePhone req.phone) = true)) ∨
    (retraitRoute op pre mk cfg req post st = ⟨.invalidAmount, st, none⟩ ∧
      cfg.enableWithdrawal = true ∧ req.amount.truthy = true ∧
      phoneFalsy (normalizePhone req.phone) = false ∧
      (req.amount.num = none ∨ ∃ q, req.amount.num = some q ∧ q ≤ 0)) ∨
    (retraitRoute op pre mk cfg req post st = ⟨.insufficient, st, none⟩ ∧
      cfg.enableWithdrawal = true ∧ req.amount.truthy = true ∧
      phoneFalsy (normalizePhone req.phone) = false ∧
      ∃ q, req.amount.num = some q ∧ 0 < q ∧ st.walletBalance < q) ∨
    (∃ q m, cfg.enableWithdrawal = true ∧ req.amount.truthy = true ∧
      phoneFalsy (normalizePhone req.phone) = false ∧
      req.amount.num = some q ∧ 0 < q ∧ q ≤ st.walletBalance ∧ post = .exn m ∧
      retraitRoute op pre mk cfg req post st =
        ⟨.internalError m, ⟨st.walletBalance - q, st.history⟩, none⟩) ∨
    (∃ q oc, cfg.enableWithdrawal = true ∧ req.amount.truthy = true ∧
      phoneFalsy (normalizePhone req.phone) = false ∧
      req.amount.num = some q ∧ 0 < q ∧ q ≤ st.walletBalance ∧ post = .gw oc ∧
      (callPSP oc).ok = false ∧
      retraitRoute op pre mk cfg req post st =
        ⟨.pspError (statusOr500 (callPSP oc).status) (callPSP oc).data,
         ⟨st.walletBalance,
          pushHistory st.history ⟨pre, q, op, "error", some (callPSP oc).data, none⟩⟩,
         some (mk cfg q ((normalizePhone req.phone).getD []))⟩) ∨
    (∃ q oc, cfg.enableWithdrawal = true ∧ req.amount.truthy = true ∧
      phoneFalsy (normalizePhone req.phone) = false ∧
      req.amount.num = some q ∧ 0 < q ∧ q ≤ st.walletBalance ∧ post = .gw oc ∧
      (callPSP oc).ok = true ∧
      retraitRoute op pre mk cfg req post st =
        ⟨.success (callPSP oc).data (st.walletBalance - q),
         ⟨st.walletBalance - q,
          pushHistory st.history ⟨pre, q, op, "success", none, some (callPSP oc).data⟩⟩,
         some (mk cfg q ((normalizePhone req.phone).getD []))⟩) := by
  rcases req with ⟨⟨t, num⟩, ph⟩
  by_cases hE : cfg.enableWithdrawal
  case neg =>
    obtain hE' : cfg.enableWithdrawal = false := by simpa using hE
    exact Or.inl ⟨by simp [retraitRoute, hE'], hE'⟩
  by_cases hV : (!t || phoneFalsy (normalizePhone ph)) = true
  case pos =>
    refine Or.inr (Or.inl ⟨by simp only [retraitRoute]; simp [hE, hV], hE, ?_⟩)
    rcases Bool.or_eq_true _ _ |>.mp hV with h | h
    · exact Or.inl (by simpa using h)
    · exact Or.inr h
  obtain ⟨hT, hP⟩ : t = true ∧ phoneFalsy (normalizePhone ph) = false := by
    have h' : (!t || phoneFalsy (normalizePhone ph)) = false := by simpa using hV
    simpa using h'
  rcases num with _ | q
  · exact Or.inr (Or.inr (Or.inl
      ⟨by simp [retraitRoute, hE, hT, hP], hE, hT, hP, Or.inl rfl⟩))
  by_cases hq0 : q ≤ 0
  · exact Or.inr (Or.inr (Or.inl
      ⟨by simp [retraitRoute, hE, hT, hP, hq0], hE, hT, hP, Or.inr ⟨q, rfl, hq0⟩⟩))
  obtain h0 : 0 < q := lt_of_not_ge hq0
  by_cases hgt : q > st.walletBalance
  · exact Or.inr (Or.inr (Or.inr (Or.inl
      ⟨by simp [retraitRoute, hE, hT, hP, hq0, hgt], hE, hT, hP, q, rfl, h0, hgt⟩)))
  obtain hle : q ≤ st.walletBalance := le_of_not_gt hgt
  rcases post with oc | m
  · by_cases hok : (callPSP oc).ok
    · refine Or.inr (Or.inr (Or.inr (Or.inr (Or.inr (Or.inr
        ⟨q, oc, hE, hT, hP, rfl, h0, hle, rfl, hok, ?_⟩)))))
      simp [retraitRoute, hE, hT, hP, hq0, hgt, hok]
    · obtain hok' : (callPSP oc).ok = false := by simpa using hok
      refine Or.inr (Or.inr (Or.inr (Or.inr (Or.inr (Or.inl
        ⟨q, oc, hE, hT, hP, rfl, h0, hle, rfl, hok', ?_⟩)))))
      simp [retraitRoute, hE, hT, hP, hq0, hgt, hok', sub_add_cancel]
  · exact Or.inr (Or.inr (Or.inr (Or.inr (Or.inl
      ⟨q, m, hE, hT, hP, rfl, h0, hle, rfl,
       by simp [retraitRoute, hE, hT, hP, hq0, hgt]⟩))))

/-- retrait74 unfolded to the shared route body. -/
theorem retrait74_def (cfg : Config) (req : WithdrawReq) (post : PostDebit)
    (st : ServerState) :
    retrait74 cfg req post st =
      retraitRoute "Airtel" "LYRA-ATM-74" (fun c n p => buildUssdCall c "74" n p)
        cfg req post st := rfl

/-- retrait62 unfolded to the shared route body. -/
theorem retrait62_def (cfg : Config) (req : WithdrawReq) (post : PostDebit)
    (st : ServerState) :
    retrait62 cfg req post st =
      retraitRoute "Moov" "LYRA-ATM-62" (fun c n p => buildUssdCall c "62" n p)
        cfg req post st := rfl

/-- retraitSingpay unfolded to the shared route body. -/
theorem retraitSingpay_def (cfg : Config) (req : WithdrawReq) (post : PostDebit)
    (st : ServerState) :
    retraitSingpay cfg req post st =
      retraitRoute "Singpay" "LYRA-PAYOUT" (fun c n p => buildPayoutCall c n p)
        cfg req post st := rfl

/-- A request that passed the whole validation chain satisfies none of the
rejection conditions. -/
theorem validated_not_rejected (cfg : Config) (req : WithdrawReq)
    (st : ServerState) (q : Rat)
    (hE : cfg.enableWithdrawal = true) (hT : req.amount.truthy = true)
    (hP : phoneFalsy (normalizePhone req.phone) = false)
    (hq : req.amount.num = some q) (h0 : 0 < q) (hle : q ≤ st.walletBalance)
    (h : cfg.enableWithdrawal = false ∨ req.amount.truthy = false ∨
         phoneFalsy (normalizePhone req.phone) = true ∨ req.amount.num = none ∨
         (∃ r, req.amount.num = some r ∧ r ≤ 0) ∨
         (∃ r, req.amount.num = some r ∧ st.walletBalance < r)) : False := by
  rcases h with h | h | h | h | ⟨r, hr, hr0⟩ | ⟨r, hr, hrb⟩
  · rw [hE] at h
    exact Bool.noConfusion h
  · rw [hT] at h
    exact Bool.noConfusion h
  · rw [hP] at h
    exact Bool.noConfusion h
  · rw [hq] at h
    exact Option.noConfusion h
  · rw [hq] at hr
    obtain rfl : q = r := by injection hr
    exact absurd h0 (not_lt.mpr hr0)
  · rw [hq] at hr
    obtain rfl : q = r := by injection hr
    exact absurd hrb (not_lt.mpr hle)

/-- A request rejected by validation leaves the state untouched and dispatches no
PSP call. -/
theorem retraitRoute_rejected (op pre : String)
    (mk : Config → Rat → List Char → SentCall)
    (cfg : Config) (req : WithdrawReq) (post : PostDebit) (st : ServerState)
    (h : cfg.enableWithdrawal = false ∨ req.amount.truthy = false ∨
         phoneFalsy (normalizePhone req.phone) = true ∨ req.amount.num = none ∨
         (∃ r, req.amount.num = some r ∧ r ≤ 0) ∨
         (∃ r, req.amount.num = some r ∧ st.walletBalance < r)) :
    (retraitRoute op pre mk cfg req post st).state = st ∧
    (retraitRoute op pre mk cfg req post st).sent = none := by
  rcases retraitRoute_cases op pre mk cfg req post st with
    ⟨he, _⟩ | ⟨he, _⟩ | ⟨he, _⟩ | ⟨he, _⟩ |
    ⟨q, m, hE, hT, hP, hq, h0, hle, _, he⟩ |
    ⟨q, oc, hE, hT, hP, hq, h0, hle, _, _, he⟩ |
    ⟨q, oc, hE, hT, hP, hq, h0, hle, _, _, he⟩
  · exact ⟨by rw [he], by rw [he]⟩
  · exact ⟨by rw [he], by rw [he]⟩
  · exact ⟨by rw [he], by rw [he]⟩
  · exact ⟨by rw [he], by rw [he]⟩
  · exact absurd h (fun h => validated_not_rejected cfg req st q hE hT hP hq h0 hle h)
  · exact absurd h (fun h => validated_not_rejected cfg req st q hE hT hP hq h0 hle h)
  · exact absurd h (fun h => validated_not_rejected cfg req st q hE hT hP hq h0 hle h)

/-- The fully-reduced form of a route invocation whose validation passed and whose
gateway call came back with ok = false: the debit is rolled back and one error
record is pushed. -/
theorem retraitRoute_gwfail (op pre : String)
    (mk : Config → Rat → List Char → SentCall)
    (cfg : Config) (req : WithdrawReq) (oc : HttpOutcome) (st : ServerState)
    (q : Rat)
    (hE : cfg.enableWithdrawal = true) (hT : req.amount.truthy = true)
    (hP : phoneFalsy (normalizePhone req.phone) = false)
    (hq : req.amount.num = some q) (h0 : 0 < q) (hle : q ≤ st.walletBalance)
    (hok : (callPSP oc).ok = false) :
    retraitRoute op pre mk cfg req (.gw oc) st =
      ⟨.pspError (statusOr500 (callPSP oc).status) (callPSP oc).data,
       ⟨st.walletBalance,
        pushHistory st.history ⟨pre, q, op, "error", some (callPSP oc).data, none⟩⟩,
       some (mk cfg q ((normalizePhone req.phone).getD []))⟩ := by
  simp [retraitRoute, hE, hT, hP, hq, hok, not_le.mpr h0, not_lt.mpr hle,
    sub_add_cancel]

/-- A route invocation never drives a non-negative balance negative. -/
theorem retraitRoute_balance_nonneg (op pre : String)
    (mk : Config → Rat → List Char → SentCall)
    (cfg : Config) (req : WithdrawReq) (post : PostDebit) (st : ServerState)
    (h : 0 ≤ st.walletBalance) :
    0 ≤ (retraitRoute op pre mk cfg req post st).state.walletBalance := by
  rcases retraitRoute_cases op pre mk cfg req post st with
    ⟨he, _⟩ | ⟨he, _⟩ | ⟨he, _⟩ | ⟨he, _⟩ |
    ⟨q, m, _, _, _, _, h0, hle, _, he⟩ |
    ⟨q, oc, _, _, _, _, h0, hle, _, _, he⟩ |
    ⟨q, oc, _, _, _, _, h0, hle, _, _, he⟩
  · rw [he]; exact h
  · rw [he]; exact h
  · rw [he]; exact h
  · rw [he]; exact h
  · rw [he]; simpa using sub_nonneg.mpr hle
  · rw [he]; exact h
  · rw [he]; simpa using sub_nonneg.mpr hle

/-! ### Claims -/

/-- C5: every withdrawal request rejected during validation (withdrawals disabled,
missing or malformed amount or phone, amount <= 0, or amount greater than the
current balance) has no side effects: the wallet balance and session history are
unchanged and no PSP call is dispatched. Stated over the shared route body, hence
for all three routes. -/
theorem c5_rejection_no_side_effects (op pre : String)
    (mk : Config → Rat → List Char → SentCall)
    (cfg : Config) (req : WithdrawReq) (post : PostDebit) (st : ServerState)
    (h : cfg.enableWithdrawal = false ∨ req.amount.truthy = false ∨
         phoneFalsy (normalizePhone req.phone) = true ∨ req.amount.num = none ∨
         (∃ r, req.amount.num = some r ∧ r ≤ 0) ∨
         (∃ r, req.amount.num = some r ∧ st.walletBalance < r)) :
    (retraitRoute op pre mk cfg req post st).state = st ∧
    (retraitRoute op pre mk cfg req post st).sent = none :=
  retraitRoute_rejected op pre mk cfg req post st h

/-- C5 witness: a concrete over-draw request (amount 2000000 against balance
1000000) is rejected with no side effects. -/
theorem c5_witness :
    (retraitRoute "Airtel" "LYRA-ATM-74" (fun c n p => buildUssdCall c "74" n p)
      ⟨true, "w", "m", "Lyra Banque", "EUR"⟩
      ⟨⟨true, some 2000000⟩, some ("077001122".toList)⟩
      (.gw (.response 200 .null)) ⟨1000000, []⟩).state = ⟨1000000, []⟩ ∧
    (retraitRoute "Airtel" "LYRA-ATM-74" (fun c n p => buildUssdCall c "74" n p)
      ⟨true, "w", "m", "Lyra Banque", "EUR"⟩
      ⟨⟨true, some 2000000⟩, some ("077001122".toList)⟩
      (.gw (.response 200 .null)) ⟨1000000, []⟩).sent = none :=
  c5_rejection_no_side_effects _ _ _ _ _ _ _
    (Or.inr (Or.inr (Or.inr (Or.inr (Or.inr ⟨2000000, rfl, by norm_num⟩)))))

/-- C2: on each of the three withdrawal routes, when the debit succeeded (the
validation chain passed) and the gateway call returns ok = false, the balance after
the attempt equals the balance before it, and exactly one error transaction record
is appended to the session history. -/
theorem c2_compensation (cfg : Config) (req : WithdrawReq) (oc : HttpOutcome)
    (st : ServerState) (q : Rat)
    (hE : cfg.enableWithdrawal = true) (hT : req.amount.truthy = true)
    (hP : phoneFalsy (normalizePhone req.phone) = false)
    (hq : req.amount.num = some q) (h0 : 0 < q) (hle : q ≤ st.walletBalance)
    (hok : (callPSP oc).ok = false) :
    ((retrait74 cfg req (.gw oc) st).state.walletBalance = st.walletBalance ∧
     (retrait74 cfg req (.gw oc) st).state.history =
       pushHistory st.history
         ⟨"LYRA-ATM-74", q, "Airtel", "error", some (callPSP oc).data, none⟩) ∧
    ((retrait62 cfg req (.gw oc) st).state.walletBalance = st.walletBalance ∧
     (retrait62 cfg req (.gw oc) st).state.history =
       pushHistory st.history
         ⟨"LYRA-ATM-62", q, "Moov", "error", some (callPSP oc).data, none⟩) ∧
    ((retraitSingpay cfg req (.gw oc) st).state.walletBalance = st.walletBalance ∧
     (retraitSingpay cfg req (.gw oc) st).state.history =
       pushHistory st.history
         ⟨"LYRA-PAYOUT", q, "Singpay", "error", some (callPSP oc).data, none⟩) := by
  have h74 := retraitRoute_gwfail "Airtel" "LYRA-ATM-74"
    (fun c n p => buildUssdCall c "74" n p) cfg req oc st q hE hT hP hq h0 hle hok
  have h62 := retraitRoute_gwfail "Moov" "LYRA-ATM-62"
    (fun c n p => buildUssdCall c "62" n p) cfg req oc st q hE hT hP hq h0 hle hok
  have hsp := retraitRoute_gwfail "Singpay" "LYRA-PAYOUT"
    (fun c n p => buildPayoutCall c n p) cfg req oc st q hE hT hP hq h0 hle hok
  refine ⟨⟨?_, ?_⟩, ⟨?_, ?_⟩, ⟨?_, ?_⟩⟩
  · rw [retrait74_def, h74]
  · rw [retrait74_def, h74]
  · rw [retrait62_def, h62]
  · rw [retrait62_def, h62]
  · rw [retraitSingpay_def, hsp]
  · rw [retraitSingpay_def, hsp]

/-- C2 witness: a concrete failed gateway call (HTTP 500 network error) on all
three routes restores the balance 1000000 and records one error entry. -/
theorem c2_witness :
    ((retrait74 ⟨true, "w", "m", "Lyra Banque", "EUR"⟩
        ⟨⟨true, some 50000⟩, some ("077001122".toList)⟩
        (.gw (.netError "timeout")) ⟨1000000, []⟩).state.walletBalance = 1000000 ∧
     (retrait74 ⟨true, "w", "m", "Lyra Banque", "EUR"⟩
        ⟨⟨true, some 50000⟩, some ("077001122".toList)⟩
        (.gw (.netError "timeout")) ⟨1000000, []⟩).state.history =
       pushHistory []
         ⟨"LYRA-ATM-74", 50000, "Airtel", "error",
          some (callPSP (.netError "timeout")).data, none⟩) ∧
    ((retrait62 ⟨true, "w", "m", "Lyra Banque", "EUR"⟩
        ⟨⟨true, some 50000⟩, some ("077001122".toList)⟩
        (.gw (.netError "timeout")) ⟨1000000, []⟩).state.walletBalance = 1000000 ∧
     (retrait62 ⟨true, "w", "m", "Lyra Banque", "EUR"⟩
        ⟨⟨true, some 50000⟩, some ("077001122".toList)⟩
        (.gw (.netError "timeout")) ⟨1000000, []⟩).state.history =
       pushHistory []
         ⟨"LYRA-ATM-62", 50000, "Moov", "error",
          some (callPSP (.netError "timeout")).data, none⟩) ∧
    ((retraitSingpay ⟨true, "w", "m", "Lyra Banque", "EUR"⟩
        ⟨⟨true, some 50000⟩, some ("077001122".toList)⟩
        (.gw (.netError "timeout")) ⟨1000000, []⟩).state.walletBalance = 1000000 ∧
     (retraitSingpay ⟨true, "w", "m", "Lyra Banque", "EUR"⟩
        ⟨⟨true, some 50000⟩, some ("077001122".toList)⟩
        (.gw (.netError "timeout")) ⟨1000000, []⟩).state.history =
       pushHistory []
         ⟨"LYRA-PAYOUT", 50000, "Singpay", "error",
          some (callPSP (.netError "timeout")).data, none⟩) :=
  c2_compensation ⟨true, "w", "m", "Lyra Banque", "EUR"⟩
    ⟨⟨true, some 50000⟩, some ("077001122".toList)⟩ (.netError "timeout")
    ⟨1000000, []⟩ 50000 rfl rfl (by decide) rfl (by norm_num) (by norm_num) rfl

/-- C3: the ledger balance is non-negative at every reachable state (any sequence
of withdrawals on the three routes with arbitrary inputs, gateway outcomes and
exceptions), and a request whose amount is NaN, <= 0, or strictly greater than the
current balance is rejected before any debit and before any PSP call: the state is
unchanged (so in particular no success history entry appears) and no call is
dispatched. -/
theorem c3_no_overdraw (cfg : Config) :
    (∀ st, Reachable cfg st → 0 ≤ st.walletBalance) ∧
    (∀ rid req post st,
      (req.amount.num = none ∨ (∃ r, req.amount.num = some r ∧ r ≤ 0) ∨
       (∃ r, req.amount.num = some r ∧ st.walletBalance < r)) →
      (routeRun rid cfg req post st).state = st ∧
      (routeRun rid cfg req post st).sent = none) := by
  constructor
  · intro st hr
    induction hr with
    | init => norm_num [initialBalance]
    | step rid req post st hr ih =>
      cases rid
      · rw [routeRun, retrait74_def]
        exact retraitRoute_balance_nonneg _ _ _ _ _ _ _ ih
      · rw [routeRun, retrait62_def]
        exact retraitRoute_balance_nonneg _ _ _ _ _ _ _ ih
      · rw [routeRun, retraitSingpay_def]
        exact retraitRoute_balance_nonneg _ _ _ _ _ _ _ ih
  · intro rid req post st h
    have h' : cfg.enableWithdrawal = false ∨ req.amount.truthy = false ∨
        phoneFalsy (normalizePhone req.phone) = true ∨ req.amount.num = none ∨
        (∃ r, req.amount.num = some r ∧ r ≤ 0) ∨
        (∃ r, req.amount.num = some r ∧ st.walletBalance < r) := by
      rcases h with h | h | h
      · exact Or.inr (Or.inr (Or.inr (Or.inl h)))
      · exact Or.inr (Or.inr (Or.inr (Or.inr (Or.inl h))))
      · exact Or.inr (Or.inr (Or.inr (Or.inr (Or.inr h))))
    cases rid
    · rw [routeRun, retrait74_def]
      exact retraitRoute_rejected _ _ _ _ _ _ _ h'
    · rw [routeRun, retrait62_def]
      exact retraitRoute_rejected _ _ _ _ _ _ _ h'
    · rw [routeRun, retraitSingpay_def]
      exact retraitRoute_rejected _ _ _ _ _ _ _ h'

/-- C3 witness: the initial state is reachable and has a non-negative balance, and
a concrete over-draw request (2000000 against 1000000) is rejected with the state
unchanged. -/
theorem c3_witness :
    (0 ≤ (⟨initialBalance, []⟩ : ServerState).walletBalance) ∧
    (routeRun .r74 ⟨true, "w", "m", "Lyra Banque", "EUR"⟩
      ⟨⟨true, some 2000000⟩, some ("077001122".toList)⟩
      (.gw (.response 200 .null)) ⟨1000000, []⟩).state = ⟨1000000, []⟩ :=
  ⟨(c3_no_overdraw ⟨true, "w", "m", "Lyra Banque", "EUR"⟩).1 _ .init,
   ((c3_no_overdraw ⟨true, "w", "m", "Lyra Banque", "EUR"⟩).2 .r74
      ⟨⟨true, some 2000000⟩, some ("077001122".toList)⟩
      (.gw (.response 200 .null)) ⟨1000000, []⟩
      (Or.inr (Or.inr ⟨2000000, rfl, by norm_num⟩))).1⟩

/-- A concrete numbered transaction record used in the history-bound scenario. -/
def recN (i : Nat) : HistEntry := ⟨"r", (i : Rat), "op", "success", none, none⟩

/-- Append the numbered records 0, 1, ..., n-1 in order through pushHistory,
starting from an empty session history. -/
def appendAll (n : Nat) : List HistEntry :=
  (List.range n).foldl (fun h i => pushHistory h (recN i)) []

set_option maxRecDepth 40000 in
/-- C6: pushHistory inserts at the front and caps the per-session list at 200 by
dropping the oldest: after appending 250 records to one session, the history holds
exactly 200 entries, in most-recent-first order (249 down to 50), i.e. the 50
oldest records (0 to 49) are dropped. -/
theorem c6_history_bound :
    (appendAll 250).length = 200 ∧
    appendAll 250 = ((List.range 250).reverse.take 200).map recN := by decide

/-- C7: callPSP yields the uniform { ok, status, data } result on every transport
outcome: a 2xx response gives ok = true with that status and body; a non-2xx
response gives ok = false with that status and body; a transport-level failure
gives ok = false, status 500 and a body carrying the diagnostic message. callPSP is
a total function, so no exception reaches its caller. -/
theorem c7_callpsp_uniform (outcome : HttpOutcome) :
    (∀ s b, outcome = .response s b → is2xx s = true →
      callPSP outcome = ⟨true, s, b⟩) ∧
    (∀ s b, outcome = .response s b → is2xx s = false →
      callPSP outcome = ⟨false, s, b⟩) ∧
    (∀ m, outcome = .netError m →
      callPSP outcome = ⟨false, 500, .errMessage m⟩) := by
  refine ⟨?_, ?_, ?_⟩
  · rintro s b rfl h
    simp [callPSP, h]
  · rintro s b rfl h
    simp [callPSP, h]
  · rintro m rfl
    rfl

/-- C7 witness: concrete instances of the three outcome shapes. -/
theorem c7_witness :
    callPSP (.response 200 .null) = ⟨true, 200, .null⟩ ∧
    callPSP (.response 404 .null) = ⟨false, 404, .null⟩ ∧
    callPSP (.netError "timeout of 30000ms exceeded") =
      ⟨false, 500, .errMessage "timeout of 30000ms exceeded"⟩ :=
  ⟨(c7_callpsp_uniform _).1 200 .null rfl (by decide),
   (c7_callpsp_uniform _).2.1 404 .null rfl (by decide),
   (c7_callpsp_uniform _).2.2 "timeout of 30000ms exceeded" rfl⟩

/-- C9: a phone consisting entirely of whitespace characters normalizes to the
empty string, which every withdrawal route treats as a missing phone: with
withdrawals enabled the request is answered with the missing-field client error and
the state is untouched, no debit, no PSP call and no history append. -/
theorem c9_whitespace_phone (s : List Char) (hws : ∀ c ∈ s, isJsWs c = true)
    (cfg : Config) (amt : JsAmount) (post : PostDebit) (st : ServerState)
    (hE : cfg.enableWithdrawal = true) :
    normalizePhone (some s) = some [] ∧
    ∀ rid, routeRun rid cfg ⟨amt, some s⟩ post st = ⟨.missingFields, st, none⟩ := by
  have hstrip : stripWs s = [] := by
    rw [stripWs, List.filter_eq_nil_iff]
    intro c hc
    simp [hws c hc]
  have hnorm : normalizePhone (some s) = some [] := by
    simp [normalizePhone, hstrip]
  refine ⟨hnorm, fun rid => ?_⟩
  have hfalsy : phoneFalsy (normalizePhone (some s)) = true := by
    rw [hnorm]
    rfl
  cases rid <;>
    simp [routeRun, retrait74_def, retrait62_def, retraitSingpay_def, retraitRoute,
      hE, hfalsy]

/-- C9 witness: the three-space phone string is rejected as missing on the Airtel
route with the state unchanged. -/
theorem c9_witness :
    normalizePhone (some ("   ".toList)) = some [] ∧
    routeRun .r74 ⟨true, "w", "m", "Lyra Banque", "EUR"⟩
      ⟨⟨true, some 50000⟩, some ("   ".toList)⟩ (.gw (.response 200 .null))
      ⟨1000000, []⟩ = ⟨.missingFields, ⟨1000000, []⟩, none⟩ := by
  have h := c9_whitespace_phone ("   ".toList) (by decide)
    ⟨true, "w", "m", "Lyra Banque", "EUR"⟩ ⟨true, some 50000⟩
    (.gw (.response 200 .null)) ⟨1000000, []⟩ rfl
  exact ⟨h.1, h.2 .r74⟩

/-- Every dispatched call carries a payload whose currency field is the one of its
builder. -/
theorem retraitRoute_sent_currency (op pre : String)
    (mk : Config → Rat → List Char → SentCall)
    (hmk : ∀ c n p, (mk c n p).payload.currency = "XAF")
    (cfg : Config) (req : WithdrawReq) (post : PostDebit) (st : ServerState)
    (c : SentCall)
    (hc : (retraitRoute op pre mk cfg req post st).sent = some c) :
    c.payload.currency = "XAF" := by
  rcases retraitRoute_cases op pre mk cfg req post st with
    ⟨he, _⟩ | ⟨he, _⟩ | ⟨he, _⟩ | ⟨he, _⟩ |
    ⟨q, m, _, _, _, _, _, _, _, he⟩ |
    ⟨q, oc, _, _, _, _, _, _, _, _, he⟩ |
    ⟨q, oc, _, _, _, _, _, _, _, _, he⟩ <;>
    rw [he] at hc <;> simp at hc <;> rw [← hc] <;> exact hmk _ _ _

/-- C10: every payload dispatched to the PSP on the three withdrawal routes carries
the fixed currency string XAF, for every configuration, request and state, while
the balance endpoint reports the configured display currency (default EUR): the two
currency codes are independent. -/
theorem c10_currency :
    (∀ cfg req post st c, (retrait74 cfg req post st).sent = some c →
      c.payload.currency = "XAF") ∧
    (∀ cfg req post st c, (retrait62 cfg req post st).sent = some c →
      c.payload.currency = "XAF") ∧
    (∀ cfg req post st c, (retraitSingpay cfg req post st).sent = some c →
      c.payload.currency = "XAF") ∧
    (∀ cfg st, (apiBalance cfg st).currency = cfg.walletCurrency) := by
  refine ⟨?_, ?_, ?_, fun cfg st => rfl⟩
  · intro cfg req post st c hc
    rw [retrait74_def] at hc
    exact retraitRoute_sent_currency "Airtel" "LYRA-ATM-74"
      (fun c n p => buildUssdCall c "74" n p) (fun c n p => rfl) _ _ _ _ _ hc
  · intro cfg req post st c hc
    rw [retrait62_def] at hc
    exact retraitRoute_sent_currency "Moov" "LYRA-ATM-62"
      (fun c n p => buildUssdCall c "62" n p) (fun c n p => rfl) _ _ _ _ _ hc
  · intro cfg req post st c hc
    rw [retraitSingpay_def] at hc
    exact retraitRoute_sent_currency "Singpay" "LYRA-PAYOUT"
      (fun c n p => buildPayoutCall c n p) (fun c n p => rfl) _ _ _ _ _ hc

/-- C10 witness: a successful concrete payout on the generic route dispatches a
payload with currency XAF even though the configured display currency is EUR. -/
theorem c10_witness :
    (retraitSingpay ⟨true, "w", "m", "Lyra Banque", "EUR"⟩
      ⟨⟨true, some 50000⟩, some ("077001122".toList)⟩
      (.gw (.response 200 (.json (some "success") 0))) ⟨1000000, []⟩).sent =
      some (buildPayoutCall ⟨true, "w", "m", "Lyra Banque", "EUR"⟩ 50000
        ("077001122".toList)) ∧
    (buildPayoutCall ⟨true, "w", "m", "Lyra Banque", "EUR"⟩ 50000
      ("077001122".toList)).payload.currency = "XAF" :=
  ⟨by decide,
   c10_currency.2.2.1 ⟨true, "w", "m", "Lyra Banque", "EUR"⟩
     ⟨⟨true, some 50000⟩, some ("077001122".toList)⟩
     (.gw (.response 200 (.json (some "success") 0))) ⟨1000000, []⟩ _ (by decide)⟩

/-- The fully-reduced form of a route invocation whose validation passed and whose
gateway call came back with ok = true: the balance stays debited and one success
record is pushed. -/
theorem retraitRoute_gwok (op pre : String)
    (mk : Config → Rat → List Char → SentCall)
    (cfg : Config) (req : WithdrawReq) (oc : HttpOutcome) (st : ServerState)
    (q : Rat)
    (hE : cfg.enableWithdrawal = true) (hT : req.amount.truthy = true)
    (hP : phoneFalsy (normalizePhone req.phone) = false)
    (hq : req.amount.num = some q) (h0 : 0 < q) (hle : q ≤ st.walletBalance)
    (hok : (callPSP oc).ok = true) :
    retraitRoute op pre mk cfg req (.gw oc) st =
      ⟨.success (callPSP oc).data (st.walletBalance - q),
       ⟨st.walletBalance - q,
        pushHistory st.history ⟨pre, q, op, "success", none, some (callPSP oc).data⟩⟩,
       some (mk cfg q ((normalizePhone req.phone).getD []))⟩ := by
  simp [retraitRoute, hE, hT, hP, hq, hok, not_le.mpr h0, not_lt.mpr hle]

/-- The fully-reduced form of a route invocation whose validation passed and in
which an unexpected exception is raised after the debit: the catch handler answers
500 and the balance stays debited. -/
theorem retraitRoute_exn (op pre : String)
    (mk : Config → Rat → List Char → SentCall)
    (cfg : Config) (req : WithdrawReq) (m : String) (st : ServerState)
    (q : Rat)
    (hE : cfg.enableWithdrawal = true) (hT : req.amount.truthy = true)
    (hP : phoneFalsy (normalizePhone req.phone) = false)
    (hq : req.amount.num = some q) (h0 : 0 < q) (hle : q ≤ st.walletBalance) :
    retraitRoute op pre mk cfg req (.exn m) st =
      ⟨.internalError m, ⟨st.walletBalance - q, st.history⟩, none⟩ := by
  simp [retraitRoute, hE, hT, hP, hq, not_le.mpr h0, not_lt.mpr hle]

/-- The local-ledger route reported a successful withdrawal. -/
def reportsSuccess : RouteResp → Bool
  | .success _ _ => true
  | _ => false

/-- The remote-wallet payout route reported a successful payout, with or without a
refreshed balance. -/
def v2ReportsSuccess : V2Resp → Bool
  | .success _ _ => true
  | .successNoRefresh _ _ => true
  | _ => false

/-- C1 counterexample: on the local-ledger generic payout route (part_001), a 2xx
gateway response whose provider status field is "failed" is still reported as a
successful withdrawal: the response is success with the new balance 950000 and a
success record is appended, although the provider status is not success. -/
theorem c1_counterexample :
    (retraitSingpay ⟨true, "w", "m", "Lyra Banque", "EUR"⟩
      ⟨⟨true, some 50000⟩, some ("077001122".toList)⟩
      (.gw (.response 200 (.json (some "failed") 0))) ⟨1000000, []⟩).resp =
      .success (.json (some "failed") 0) 950000 ∧
    (retraitSingpay ⟨true, "w", "m", "Lyra Banque", "EUR"⟩
      ⟨⟨true, some 50000⟩, some ("077001122".toList)⟩
      (.gw (.response 200 (.json (some "failed") 0))) ⟨1000000, []⟩).state.history =
      [⟨"LYRA-PAYOUT", 50000, "Singpay", "success", none,
        some (.json (some "failed") 0)⟩] ∧
    bodyStatusSuccess (.json (some "failed") 0) = false := by
  have h := retraitRoute_gwok "Singpay" "LYRA-PAYOUT"
    (fun c n p => buildPayoutCall c n p)
    ⟨true, "w", "m", "Lyra Banque", "EUR"⟩
    ⟨⟨true, some 50000⟩, some ("077001122".toList)⟩
    (.response 200 (.json (some "failed") 0)) ⟨1000000, []⟩ 50000
    rfl rfl (by decide) rfl (by norm_num) (by norm_num) rfl
  have h2 : is2xx 200 = true := by decide
  have hb : (1000000 : Rat) - 50000 = 950000 := by norm_num
  refine ⟨?_, ?_, rfl⟩
  · rw [retraitSingpay_def, h]
    simp [callPSP, h2, hb]
  · rw [retraitSingpay_def, h]
    simp [callPSP, h2, pushHistory, MAX_HISTORY_PER_SESSION]

/-- C1 amended: only the remote-wallet variant (server.js) requires the provider
status field: its generic payout route reports success only when the transport
result is 2xx and the parsed body carries status "success". The local-ledger
variant (part_001) reports success on its generic payout route (appending a success
record and returning the new balance) whenever the gateway result has ok = true,
regardless of the provider status field. -/
theorem c1_amended :
    (∀ cfg req oc refresh,
      v2ReportsSuccess (retraitSingpayV2 cfg req oc refresh) = true →
      ∃ s t, oc = .response s (.json (some "success") t) ∧ is2xx s = true) ∧
    (∀ cfg req post st,
      reportsSuccess (retraitSingpay cfg req post st).resp = true →
      ∃ oc, post = .gw oc ∧ (callPSP oc).ok = true) := by
  constructor
  · intro cfg req oc refresh h
    by_cases hE : cfg.enableWithdrawal
    · by_cases hV : (!req.amount.truthy || phoneFalsy (normalizePhone req.phone))
          = true
      · simp [retraitSingpayV2, hE, hV, v2ReportsSuccess] at h
      · have hV' : (!req.amount.truthy || phoneFalsy (normalizePhone req.phone))
            = false := by simpa using hV
        rcases oc with ⟨s, b⟩ | m
        · by_cases hc : (!(is2xx s) || !(bodyNonNull b) || !(bodyStatusSuccess b))
              = true
          · simp [retraitSingpayV2, hE, hV', hc, v2ReportsSuccess] at h
          · have hc' : (!(is2xx s) || !(bodyNonNull b) || !(bodyStatusSuccess b))
                = false := by simpa using hc
            obtain ⟨⟨h2, hnn⟩, hss⟩ : (is2xx s = true ∧ bodyNonNull b = true) ∧
                bodyStatusSuccess b = true := by simpa using hc'
            rcases b with st' | _ | mm
            · rcases st' with _ | s'
              · simp [bodyStatusSuccess] at hss
              · have hs' : s' = "success" := by
                  simpa [bodyStatusSuccess] using hss
                subst hs'
                exact ⟨s, _, rfl, h2⟩
            · simp [bodyNonNull] at hnn
            · simp [bodyStatusSuccess] at hss
        · simp [retraitSingpayV2, hE, hV', v2ReportsSuccess] at h
    · obtain hE' : cfg.enableWithdrawal = false := by simpa using hE
      simp [retraitSingpayV2, hE', v2ReportsSuccess] at h
  · intro cfg req post st h
    rw [retraitSingpay_def] at h
    rcases retraitRoute_cases "Singpay" "LYRA-PAYOUT"
        (fun c n p => buildPayoutCall c n p) cfg req post st with
      ⟨he, _⟩ | ⟨he, _⟩ | ⟨he, _⟩ | ⟨he, _⟩ |
      ⟨q, m, _, _, _, _, _, _, hpost, he⟩ |
      ⟨q, oc, _, _, _, _, _, _, hpost, hok, he⟩ |
      ⟨q, oc, _, _, _, _, _, _, hpost, hok, he⟩
    · rw [he] at h
      simp [reportsSuccess] at h
    · rw [he] at h
      simp [reportsSuccess] at h
    · rw [he] at h
      simp [reportsSuccess] at h
    · rw [he] at h
      simp [reportsSuccess] at h
    · rw [he] at h
      simp [reportsSuccess] at h
    · rw [he] at h
      simp [reportsSuccess] at h
    · exact ⟨oc, hpost, hok⟩

/-- C1 witness: a concrete accepted payout on each variant. The remote-wallet route
accepts a 201 response with provider status success; the local-ledger route
reports success for a 200 response whose body has no status field at all. -/
theorem c1_witness :
    (∃ s t, (HttpOutcome.response 201 (.json (some "success") 5)) =
      HttpOutcome.response s (.json (some "success") t) ∧ is2xx s = true) ∧
    (∃ oc, (PostDebit.gw (.response 200 (.json none 1))) = PostDebit.gw oc ∧
      (callPSP oc).ok = true) :=
  ⟨c1_amended.1 ⟨true, "w", "m", "Lyra Banque", "EUR"⟩
      ⟨⟨true, some 50000⟩, some ("077001122".toList)⟩
      (.response 201 (.json (some "success") 5)) (.ok none) (by decide),
   c1_amended.2 ⟨true, "w", "m", "Lyra Banque", "EUR"⟩
      ⟨⟨true, some 50000⟩, some ("077001122".toList)⟩
      (.gw (.response 200 (.json none 1))) ⟨1000000, []⟩ (by decide)⟩

/-- C4 (the catch handler does not compensate): a withdrawal on the generic payout
route of part_001 in which the debit succeeded and an unexpected exception is then
raised is answered as a 500 internal error by the catch handler with no
compensating credit: the balance stays at the debited 950000 instead of being
restored to 1000000, and no history record is written. -/
theorem c4_uncompensated_exception :
    retraitSingpay ⟨true, "w", "m", "Lyra Banque", "EUR"⟩
      ⟨⟨true, some 50000⟩, some ("077001122".toList)⟩
      (.exn "unexpected fault") ⟨1000000, []⟩ =
      ⟨.internalError "unexpected fault", ⟨950000, []⟩, none⟩ := by
  have h := retraitRoute_exn "Singpay" "LYRA-PAYOUT"
    (fun c n p => buildPayoutCall c n p)
    ⟨true, "w", "m", "Lyra Banque", "EUR"⟩
    ⟨⟨true, some 50000⟩, some ("077001122".toList)⟩
    "unexpected fault" ⟨1000000, []⟩ 50000
    rfl rfl (by decide) rfl (by norm_num) (by norm_num)
  rw [retraitSingpay_def, h]
  have hb : (1000000 : Rat) - 50000 = 950000 := by norm_num
  rw [hb]

/-- The cache-hit condition unfolded to its three conjuncts. -/
theorem cacheFresh_iff (force : Bool) (now : Int) (st : CacheState) :
    cacheFresh force now st = true ↔
      (force = false ∧ st.walletCache.isSome = true ∧
       now - st.lastFetch < CACHE_DURATION) := by
  simp [cacheFresh, Bool.and_eq_true, Bool.not_eq_true', and_assoc]

/-- C8: fetchWalletInfo returns without contacting the gateway exactly when the
cache-hit condition holds, i.e. a cached value exists, force is false and the cache
is younger than the 30 second TTL, and in that case it returns the cached value
with the state unchanged. Otherwise it performs the lookup: a 2xx response is
stored with a fresh timestamp and returned; a non-2xx response or a transport
error makes the failure propagate to the caller, with the stale cached value left
in place but not returned. -/
theorem c8_cache (force : Bool) (now : Int) (st : CacheState) (lk : LookupOutcome) :
    ((fetchWalletInfo force now st lk).contacted = false ↔
      cacheFresh force now st = true) ∧
    (cacheFresh force now st = true ↔
      (force = false ∧ st.walletCache.isSome = true ∧
       now - st.lastFetch < CACHE_DURATION)) ∧
    (cacheFresh force now st = true →
      fetchWalletInfo force now st lk = ⟨.ok st.walletCache, st, false⟩) ∧
    (∀ status j, cacheFresh force now st = false → lk = .response status j →
      is2xx status = true →
      fetchWalletInfo force now st lk = ⟨.ok j, ⟨j, now⟩, true⟩) ∧
    (∀ status j, cacheFresh force now st = false → lk = .response status j →
      is2xx status = false →
      fetchWalletInfo force now st lk =
        ⟨.error "Failed to fetch wallet info", st, true⟩) ∧
    (∀ m, cacheFresh force now st = false → lk = .netError m →
      fetchWalletInfo force now st lk = ⟨.error m, st, true⟩) := by
  refine ⟨?_, cacheFresh_iff force now st, ?_, ?_, ?_, ?_⟩
  · by_cases hf : cacheFresh force now st = true
    · simp [fetchWalletInfo, hf]
    · have hf' : cacheFresh force now st = false := by simpa using hf
      rcases lk with ⟨status, j⟩ | m
      · by_cases h2 : is2xx status = true
        · simp [fetchWalletInfo, hf', h2]
        · have h2' : is2xx status = false := by simpa using h2
          simp [fetchWalletInfo, hf', h2']
      · simp [fetchWalletInfo, hf']
  · intro hf
    simp [fetchWalletInfo, hf]
  · rintro status j hf rfl h2
    simp [fetchWalletInfo, hf, h2]
  · rintro status j hf rfl h2
    simp [fetchWalletInfo, hf, h2]
  · rintro m hf rfl
    simp [fetchWalletInfo, hf]

/-- C8 witness: concrete cache behaviours. A cold cache with a 2xx lookup stores
and returns the fresh value; a 10 second old cache is returned without contact; a
forced refresh hitting a transport error propagates the error and keeps the cache. -/
theorem c8_witness :
    fetchWalletInfo false 100000 ⟨none, 0⟩ (.response 200 (some ⟨7⟩)) =
      ⟨.ok (some ⟨7⟩), ⟨some ⟨7⟩, 100000⟩, true⟩ ∧
    fetchWalletInfo false 10000 ⟨some ⟨3⟩, 0⟩ (.response 200 (some ⟨7⟩)) =
      ⟨.ok (some ⟨3⟩), ⟨some ⟨3⟩, 0⟩, false⟩ ∧
    fetchWalletInfo true 10000 ⟨some ⟨3⟩, 0⟩ (.netError "socket hang up") =
      ⟨.error "socket hang up", ⟨some ⟨3⟩, 0⟩, true⟩ :=
  ⟨(c8_cache false 100000 ⟨none, 0⟩ (.response 200 (some ⟨7⟩))).2.2.2.1
      200 (some ⟨7⟩) (by decide) rfl (by decide),
   (c8_cache false 10000 ⟨some ⟨3⟩, 0⟩ (.response 200 (some ⟨7⟩))).2.2.1 (by decide),
   (c8_cache true 10000 ⟨some ⟨3⟩, 0⟩ (.netError "socket hang up")).2.2.2.2.2
      "socket hang up" (by decide) rfl⟩

end Veroxbank
